import Mathlib

/-!
Verification development for the crypto technical-analysis core:
a shallow embedding of `app/utils/confidence.py` (Confidence Scorer and
Signal Resolver) and `app/utils/indicators.py` (Indicator Engine),
with theorems settling the specification claims.

Modelling conventions:
* Python floats are modelled as rationals (`ℚ`); all arithmetic is exact.
* `Optional[float]` becomes `Option ℚ`; a missing dictionary key is `none`.
* Python `round` (banker's rounding, half to even) is `pyRound`.
* Exceptions raised while processing the optional market-context /
  social-sentiment inputs are modelled with `Except`; the error payload
  carries the partial `context_adjustment` accumulated before the raise,
  exactly as the Python local variable survives the caught exception.
* The evidence string lists (`supporting_indicators`, `conflicting_indicators`)
  are not modelled; no claim concerns them.
-/

/-- Snapshot of technical indicators, the fixed key set of
`calculate_technical_indicators` as consumed by `calculate_confidence_score`. -/
structure TechIndicators where
  rsi : Option ℚ
  macd : Option ℚ
  macd_signal : Option ℚ
  macd_hist : Option ℚ
  bb_upper : Option ℚ
  bb_middle : Option ℚ
  bb_lower : Option ℚ
  sma_50 : Option ℚ
  adx : Option ℚ
  adx_plus_di : Option ℚ
  adx_minus_di : Option ℚ
  ema_9 : Option ℚ
  ema_21 : Option ℚ
  ema_55 : Option ℚ
deriving Repr, DecidableEq

/-- The all-`None` snapshot. -/
def TechIndicators.empty : TechIndicators :=
  ⟨none, none, none, none, none, none, none, none, none, none, none, none, none, none⟩

/-- Directional vote counters (`votes` dict in `calculate_confidence_score`). -/
structure Votes where
  bullish : ℕ
  bearish : ℕ
  neutral : ℕ
deriving Repr, DecidableEq

instance : Add Votes :=
  ⟨fun a b => ⟨a.bullish + b.bullish, a.bearish + b.bearish, a.neutral + b.neutral⟩⟩

/-- Predicted direction. -/
inductive Direction where
  | bullish
  | bearish
  | neutral
deriving Repr, DecidableEq

/-- Five-level trading signal. -/
inductive TradingSignal where
  | strongBuy
  | buy
  | hold
  | sell
  | strongSell
deriving Repr, DecidableEq

/-- Python `round` on a rational: round half to even (banker's rounding). -/
def pyRound (q : ℚ) : ℤ :=
  if q - ⌊q⌋ < 1/2 then ⌊q⌋
  else if 1/2 < q - ⌊q⌋ then ⌊q⌋ + 1
  else if Even ⌊q⌋ then ⌊q⌋ else ⌊q⌋ + 1

/-- Python `round(q, 2)`: round to two decimal places, half to even. -/
def pyRound2 (q : ℚ) : ℚ :=
  (pyRound (q * 100) : ℚ) / 100

/-- RSI analysis of `calculate_confidence_score` (step 1, lines 192-208):
sub-score (0-20) and directional vote. -/
def rsiBlock (rsi : Option ℚ) : ℚ × Votes :=
  match rsi with
  | none => (0, ⟨0, 0, 0⟩)
  | some r =>
    if r < 30 then (min 20 ((30 - r) * (3/2)), ⟨1, 0, 0⟩)
    else if r > 70 then (min 20 ((r - 70) * (3/2)), ⟨0, 1, 0⟩)
    else (max 0 (10 - |50 - r| * (1/5)), ⟨0, 0, 1⟩)

/-- MACD analysis of `calculate_confidence_score` (step 2, lines 210-239):
histogram-magnitude plus crossover-proximity sub-score (0-25) and vote. -/
def macdBlock (macd macdSig macdHist : Option ℚ) : ℚ × Votes :=
  match macd, macdSig, macdHist with
  | some m, some s, some h =>
    let histScore := min 15 (|h| * 50)
    let crossProximityScore := max 0 (10 - |m - s| * 20)
    let sc := histScore + crossProximityScore
    if m > s ∧ h > 0 then (sc, ⟨1, 0, 0⟩)
    else if m < s ∧ h < 0 then (sc, ⟨0, 1, 0⟩)
    else (sc, ⟨0, 0, 1⟩)
  | _, _, _ => (0, ⟨0, 0, 0⟩)

/-- Bollinger Bands analysis of `calculate_confidence_score`
(step 3, lines 241-267). -/
def bbBlock (bbUpper bbMiddle bbLower price : Option ℚ) : ℚ × Votes :=
  match bbUpper, bbMiddle, bbLower, price with
  | some u, some _m, some l, some p =>
    let bandWidth := u - l
    if bandWidth > 1/1000000 then
      let pos := (p - l) / bandWidth
      if pos < 1/10 then (min 25 ((1/10 - pos) * 250), ⟨1, 0, 0⟩)
      else if pos > 9/10 then (min 25 ((pos - 9/10) * 250), ⟨0, 1, 0⟩)
      else (max 0 (10 - |1/2 - pos| * 20), ⟨0, 0, 1⟩)
    else (0, ⟨0, 0, 0⟩)
  | _, _, _, _ => (0, ⟨0, 0, 0⟩)

/-- SMA analysis of `calculate_confidence_score` (step 4, lines 269-290). -/
def smaBlock (sma50 price : Option ℚ) : ℚ × Votes :=
  match sma50, price with
  | some s, some p =>
    let percDiff := if s ≠ 0 then |p - s| / s * 100 else 0
    let sc := min 20 (percDiff * 4)
    if p > s then (sc, ⟨1, 0, 0⟩)
    else if p < s then (sc, ⟨0, 1, 0⟩)
    else (sc, ⟨0, 0, 1⟩)
  | _, _ => (0, ⟨0, 0, 0⟩)

/-- ADX analysis of `calculate_confidence_score` (step 5, lines 292-346). -/
def adxBlock (adx plusDi minusDi : Option ℚ) : ℚ × Votes :=
  match adx, plusDi, minusDi with
  | some a, some pd, some md =>
    let adxStrength := if a < 20 then a / 2 else if a < 30 then 10 + (a - 20) / 2 else 15
    let diDiff := |pd - md|
    let diDiffPct := if pd + md > 0 then diDiff / ((pd + md) / 2) * 100 else 0
    let directionalClarity := min 5 (diDiffPct / 10)
    let sc := min 20 (adxStrength + directionalClarity)
    if pd > md then (sc, if diDiffPct > 20 then ⟨2, 0, 0⟩ else ⟨1, 0, 0⟩)
    else if md > pd then (sc, if diDiffPct > 20 then ⟨0, 2, 0⟩ else ⟨0, 1, 0⟩)
    else (sc, ⟨0, 0, 1⟩)
  | _, _, _ => (0, ⟨0, 0, 0⟩)

/-- EMA analysis of `calculate_confidence_score` (step 6, lines 348-409). -/
def emaBlock (ema9 ema21 ema55 price : Option ℚ) : ℚ × Votes :=
  match ema9, ema21, ema55, price with
  | some e9, some e21, some e55, some p =>
    let alignPart : ℚ × Votes :=
      if e9 > e21 ∧ e21 > e55 then (10, ⟨2, 0, 0⟩)
      else if e9 < e21 ∧ e21 < e55 then (10, ⟨0, 2, 0⟩)
      else if e9 > e21 then (5, ⟨1, 0, 0⟩)
      else if e9 < e21 then (5, ⟨0, 1, 0⟩)
      else (0, ⟨0, 0, 0⟩)
    let diffPct := if e21 ≠ 0 then |e9 - e21| / e21 * 100 else 0
    let crossPart : ℚ × Votes :=
      if diffPct < 1/2 then
        (5, if e9 > e21 then ⟨1, 0, 0⟩ else ⟨0, 1, 0⟩)
      else (0, ⟨0, 0, 0⟩)
    let pricePart : ℚ × Votes :=
      if p > e55 then (5, ⟨1, 0, 0⟩)
      else if p < e55 then (5, ⟨0, 1, 0⟩)
      else (0, ⟨0, 0, 0⟩)
    let allEmaVotes : Votes :=
      if p > e9 ∧ p > e21 ∧ p > e55 then ⟨1, 0, 0⟩
      else if p < e9 ∧ p < e21 ∧ p < e55 then ⟨0, 1, 0⟩
      else ⟨0, 0, 0⟩
    (min 20 (alignPart.1 + crossPart.1 + pricePart.1),
      alignPart.2 + crossPart.2 + pricePart.2 + allEmaVotes)
  | _, _, _, _ => (0, ⟨0, 0, 0⟩)

/-- Data-quality sub-score of `calculate_confidence_score`
(step 7, lines 411-422): fraction of the 14 expected indicators present. -/
def dataQuality (t : TechIndicators) : ℚ :=
  let avail : ℕ :=
    ([t.rsi, t.macd, t.macd_signal, t.macd_hist,
      t.bb_upper, t.bb_middle, t.bb_lower, t.sma_50,
      t.adx, t.adx_plus_di, t.adx_minus_di,
      t.ema_9, t.ema_21, t.ema_55].filter Option.isSome).length
  min 10 ((avail : ℚ) / 14 * 10)

/-- Vote totals accumulated over the six indicator families
(the imperative `votes` accumulation of lines 189-409). -/
def collectVotes (t : TechIndicators) (price : Option ℚ) : Votes :=
  (rsiBlock t.rsi).2
    + (macdBlock t.macd t.macd_signal t.macd_hist).2
    + (bbBlock t.bb_upper t.bb_middle t.bb_lower price).2
    + (smaBlock t.sma_50 price).2
    + (adxBlock t.adx t.adx_plus_di t.adx_minus_di).2
    + (emaBlock t.ema_9 t.ema_21 t.ema_55 price).2

/-- Direction resolution from votes (lines 424-430). -/
def computeDirection (v : Votes) : Direction :=
  if v.bullish > v.bearish then .bullish
  else if v.bearish > v.bullish then .bearish
  else .neutral

/-- Agreement ratio (lines 446-454): agreeing directional votes over all
directional votes, defaulting to 1/2. -/
def voteAgreement (v : Votes) (d : Direction) : ℚ :=
  let agreeing : ℕ := match d with
    | .bullish => v.bullish
    | .bearish => v.bearish
    | .neutral => 0
  let disagreeing : ℕ := match d with
    | .bullish => v.bearish
    | .bearish => v.bullish
    | .neutral => 0
  if agreeing + disagreeing > 0 then (agreeing : ℚ) / ((agreeing : ℚ) + (disagreeing : ℚ))
  else 1/2

/-- A value fed to Python `int(...)`: either parseable to an integer or
malformed (so that `int` raises `ValueError`). -/
inductive PyIntLike where
  | valid (n : ℤ)
  | malformed
deriving Repr, DecidableEq

/-- A value whose Python `len(...)` may be taken: either sized or an
object without `__len__` (so that `len` raises `TypeError`). -/
inductive PyLenLike where
  | sized (n : ℕ)
  | unsized
deriving Repr, DecidableEq

/-- Nested `fear_greed` dict of the market context. A `none` value also
covers falsy values, which skip the branch. -/
structure FearGreedData where
  value : Option PyIntLike
deriving Repr, DecidableEq

/-- Nested `fear_greed_trend` dict of the market context. -/
structure FearGreedTrendData where
  trend : Option String
  trendDirection : Option String
deriving Repr, DecidableEq

/-- Nested `global_market` dict of the market context. -/
structure GlobalMarketData where
  marketCapChange24h : Option ℚ
deriving Repr, DecidableEq

/-- Nested `market_volatility` dict of the market context. A present
`volatilityPattern` models a truthy (non-empty) pattern string. -/
structure MarketVolatilityData where
  volatilityPattern : Option String
  avgVolatility24h : Option ℚ
deriving Repr, DecidableEq

/-- Nested `btc_dominance` dict of the market context. `btcDominance` and
`btcEthRatio` are interpolated with a `.2f` float format, which raises
`TypeError` when the value is absent (`None`). -/
structure BtcDominanceData where
  btcDominance : Option ℚ
  marketImplication : Option String
  btcEthRatio : Option ℚ
deriving Repr, DecidableEq

/-- Optional `market_context` argument of `calculate_confidence_score`.
Any nested dict may be absent. -/
structure MarketContext where
  fearGreed : Option FearGreedData
  fearGreedTrend : Option FearGreedTrendData
  globalMarket : Option GlobalMarketData
  marketVolatility : Option MarketVolatilityData
  btcDominance : Option BtcDominanceData
deriving Repr, DecidableEq

/-- Optional `twitter_sentiment` argument of `calculate_confidence_score`. -/
structure TwitterSentiment where
  overallSentiment : Option String
  keyTweets : Option PyLenLike
deriving Repr, DecidableEq

/-- Fear and Greed index analysis (lines 488-542), threading the running
market score and context adjustment; `Except` error carries the partial
adjustment live when `int(...)` raises. -/
def fgStep (d : Direction) (fg : Option FearGreedData) (ms adj : ℚ) : Except ℚ (ℚ × ℚ) :=
  match fg with
  | none => .ok (ms, adj)
  | some f =>
    match f.value with
    | none => .ok (ms, adj)
    | some .malformed => .error adj
    | some (.valid v) =>
      match d with
      | .bullish =>
        if v > 75 then .ok (ms + 0, adj - 10)
        else if v > 60 then .ok (ms + 2, adj - 5)
        else if v < 25 then .ok (ms + 10, adj + 10)
        else if v < 40 then .ok (ms + 7, adj + 5)
        else .ok (ms + 5, adj)
      | .bearish =>
        if v > 75 then .ok (ms + 10, adj + 10)
        else if v > 60 then .ok (ms + 7, adj + 5)
        else if v < 25 then .ok (ms + 0, adj - 10)
        else if v < 40 then .ok (ms + 2, adj - 5)
        else .ok (ms + 5, adj)
      | .neutral =>
        if v > 70 ∨ v < 30 then .ok (ms + 5, adj)
        else .ok (ms + 3, adj)

/-- Fear and Greed 30-day trend analysis (lines 544-603). -/
def trendStep (d : Direction) (fgt : Option FearGreedTrendData) (ms adj : ℚ) : ℚ × ℚ :=
  match fgt with
  | none => (ms, adj)
  | some t =>
    let tr := t.trend
    let td := t.trendDirection
    match d with
    | .bullish =>
      if tr = some "extreme_fear" ∨ tr = some "fear" then
        if td = some "increasing" ∨ td = some "strongly_increasing" then (ms + 5, adj + 5)
        else (ms + 3, adj + 3)
      else if tr = some "extreme_greed" ∨ tr = some "greed" then
        if td = some "increasing" ∨ td = some "strongly_increasing" then (ms + 0, adj - 5)
        else (ms + 1, adj - 2)
      else (ms, adj)
    | .bearish =>
      if tr = some "extreme_greed" ∨ tr = some "greed" then
        if td = some "increasing" ∨ td = some "strongly_increasing" then (ms + 5, adj + 5)
        else (ms + 3, adj + 3)
      else if tr = some "extreme_fear" ∨ tr = some "fear" then
        if td = some "decreasing" ∨ td = some "strongly_decreasing" then (ms + 0, adj - 5)
        else (ms + 1, adj - 2)
      else (ms, adj)
    | .neutral => (ms, adj)

/-- Global market 24h cap-change analysis (lines 605-658). -/
def globalStep (d : Direction) (gm : Option GlobalMarketData) (ms adj : ℚ) : ℚ × ℚ :=
  match gm with
  | none => (ms, adj)
  | some g =>
    match g.marketCapChange24h with
    | none => (ms, adj)
    | some chg =>
      match d with
      | .bullish =>
        if chg < -5 then (ms + 0, adj - 10)
        else if chg < -2 then (ms + 2, adj - 5)
        else if chg > 5 then (ms + 10, adj + 10)
        else if chg > 2 then (ms + 7, adj + 5)
        else (ms + 5, adj)
      | .bearish =>
        if chg < -5 then (ms + 10, adj + 10)
        else if chg < -2 then (ms + 7, adj + 5)
        else if chg > 5 then (ms + 0, adj - 10)
        else if chg > 2 then (ms + 2, adj - 5)
        else (ms + 5, adj)
      | .neutral =>
        if |chg| > 5 then (ms + 5, adj)
        else (ms + 3, adj)

/-- Market volatility analysis (lines 660-689). -/
def volStep (d : Direction) (mv : Option MarketVolatilityData) (ms adj : ℚ) : ℚ × ℚ :=
  match mv with
  | none => (ms, adj)
  | some v =>
    match v.volatilityPattern, v.avgVolatility24h with
    | some vp, some _av =>
      if vp = "highly_volatile" then
        if d = .bullish ∨ d = .bearish then (ms + 5, adj + 3)
        else (ms + 2, adj)
      else if vp = "stable" then
        if d = .bullish ∨ d = .bearish then (ms + 2, adj)
        else (ms + 4, adj + 2)
      else (ms, adj)
    | _, _ => (ms, adj)

/-- BTC dominance analysis (lines 691-723); the two `.2f` interpolations
raise when their value is absent, carrying the partial adjustment. -/
def btcStep (d : Direction) (bd : Option BtcDominanceData) (ms adj : ℚ) : Except ℚ (ℚ × ℚ) :=
  match bd with
  | none => .ok (ms, adj)
  | some b =>
    match b.btcDominance with
    | none => .error adj
    | some _ =>
      match b.btcEthRatio with
      | none => .error adj
      | some _ =>
        let mi := b.marketImplication
        if mi = some "altcoin_bullish" ∧ d = .bullish then .ok (ms + 5, adj + 3)
        else if mi = some "altcoin_bearish" ∧ d = .bearish then .ok (ms + 5, adj + 3)
        else if mi = some "altcoin_bullish" ∧ d = .bearish then .ok (ms + 1, adj - 2)
        else if mi = some "altcoin_bearish" ∧ d = .bullish then .ok (ms + 1, adj - 2)
        else .ok (ms + 3, adj)

/-- The `try` block of the enhanced market-context analysis
(lines 479-728): on success yields the capped market score (stored as
`scores['market_context']`) and the final `context_adjustment`; on an
internal raise yields the partial `context_adjustment` only. -/
def processMarketContext (d : Direction) (mc : MarketContext) : Except ℚ (ℚ × ℚ) :=
  match fgStep d mc.fearGreed 0 0 with
  | .error adj => .error adj
  | .ok (ms1, adj1) =>
    let p2 := trendStep d mc.fearGreedTrend ms1 adj1
    let p3 := globalStep d mc.globalMarket p2.1 p2.2
    let p4 := volStep d mc.marketVolatility p3.1 p3.2
    match btcStep d mc.btcDominance p4.1 p4.2 with
    | .error adj => .error adj
    | .ok (ms5, adj5) => .ok (min 30 ms5, adj5)

/-- The `try` block of the Twitter sentiment analysis (lines 739-786):
alignment scoring, then the key-tweet bonus whose `len(...)` may raise
after the sentiment adjustment was already set. -/
def processTwitter (d : Direction) (tw : TwitterSentiment) : Except ℚ (ℚ × ℚ) :=
  let s := tw.overallSentiment.getD "neutral"
  let p1 : ℚ × ℚ :=
    match d with
    | .bullish =>
      if s = "bullish" then (15, 10)
      else if s = "bearish" then (0, -10)
      else (5, 0)
    | .bearish =>
      if s = "bearish" then (15, 10)
      else if s = "bullish" then (0, -10)
      else (5, 0)
    | .neutral =>
      if s ≠ "neutral" then (10, 0)
      else (5, 0)
  match tw.keyTweets.getD (.sized 0) with
  | .unsized => .error p1.2
  | .sized n =>
    let ts := if n ≥ 3 then p1.1 + 5 else p1.1
    .ok (min 20 ts, p1.2)

/-- Per-family factor scores dict of `calculate_confidence_score`. The six
technical families plus data quality are always set; `market_context` and
`twitter_sentiment` are keys added only on successful optional-input
processing (`none` models the absent key). -/
structure FactorScores where
  rsi : ℚ
  macd : ℚ
  bb : ℚ
  sma : ℚ
  adx : ℚ
  ema : ℚ
  data_quality : ℚ
  market_context : Option ℚ
  twitter_sentiment : Option ℚ
deriving Repr, DecidableEq

/-- The `scores` dict exactly as it stands at line 458, when the weighted
sum is computed: the optional-family keys are not yet present. -/
def baseScores (t : TechIndicators) (price : Option ℚ) : FactorScores :=
  { rsi := (rsiBlock t.rsi).1
    macd := (macdBlock t.macd t.macd_signal t.macd_hist).1
    bb := (bbBlock t.bb_upper t.bb_middle t.bb_lower price).1
    sma := (smaBlock t.sma_50 price).1
    adx := (adxBlock t.adx t.adx_plus_di t.adx_minus_di).1
    ema := (emaBlock t.ema_9 t.ema_21 t.ema_55 price).1
    data_quality := dataQuality t
    market_context := none
    twitter_sentiment := none }

/-- The weighted component sum of lines 460-469 (`scores.get(k, 0)` over
the current `scores` dict state), without the agreement term. -/
def weightedComponentSum (s : FactorScores) : ℚ :=
  s.rsi * (8/100) + s.macd * (8/100) + s.bb * (8/100) + s.sma * (8/100)
    + s.adx * (8/100) + s.ema * (8/100)
    + (s.market_context.getD 0) * (25/100)
    + (s.twitter_sentiment.getD 0) * (15/100)
    + s.data_quality * (10/100)

/-- The aggregate of the per-family sub-scores before the agreement bonus,
the adjustment terms and the clamp: the weighted sum as evaluated at
line 460 over the dict state of that moment. -/
def preAdjustmentAggregate (t : TechIndicators) (price : Option ℚ) : ℚ :=
  weightedComponentSum (baseScores t price)

/-- `context_adjustment` as it stands at line 792: 0 when no market
context was given, else the (possibly partial) adjustment from the
context analysis, surviving a swallowed exception. -/
def contextAdjustment (d : Direction) (mc : Option MarketContext) : ℚ :=
  match mc with
  | none => 0
  | some m =>
    match processMarketContext d m with
    | .ok p => p.2
    | .error adj => adj

/-- `twitter_adjustment` as it stands at line 792. -/
def twitterAdjustment (d : Direction) (tw : Option TwitterSentiment) : ℚ :=
  match tw with
  | none => 0
  | some w =>
    match processTwitter d w with
    | .ok p => p.2
    | .error adj => adj

/-- Final `scores` dict state: the optional-family keys are set exactly
when their `try` block ran to completion (lines 728 and 786). -/
def finalScores (t : TechIndicators) (price : Option ℚ) (d : Direction)
    (mc : Option MarketContext) (tw : Option TwitterSentiment) : FactorScores :=
  let s0 := baseScores t price
  let s1 :=
    match mc with
    | none => s0
    | some m =>
      match processMarketContext d m with
      | .ok p => { s0 with market_context := some p.1 }
      | .error _ => s0
  match tw with
  | none => s1
  | some w =>
    match processTwitter d w with
    | .ok p => { s1 with twitter_sentiment := some p.1 }
    | .error _ => s1

/-- Base vote of `generate_trading_signal` from direction and confidence
(step 1, lines 40-50): pair of (bullish, bearish) signal counts. -/
def baseSignalVotes (score : ℤ) (d : Direction) : ℚ × ℚ :=
  match d with
  | .bullish => if score ≥ 60 then (2, 0) else if score ≥ 30 then (1, 0) else (0, 0)
  | .bearish => if score ≥ 60 then (0, 2) else if score ≥ 30 then (0, 1) else (0, 0)
  | .neutral => (0, 0)

/-- RSI conditions of `generate_trading_signal` (step 2, lines 52-61),
reproducing the elif chain literally: the two extreme branches are
shadowed by the preceding conditions. -/
def rsiSignalVotes (rsi : Option ℚ) : ℚ × ℚ :=
  match rsi with
  | none => (0, 0)
  | some r =>
    if r ≤ 30 then (1, 0)
    else if r ≤ 20 then (2, 0)
    else if r ≥ 70 then (0, 1)
    else if r ≥ 80 then (0, 2)
    else (0, 0)

/-- MACD conditions of `generate_trading_signal` (step 3, lines 63-83),
including the near-crossover damping of lines 78-83. -/
def macdSignalVotes (macd macdSig macdHist : Option ℚ) : ℚ × ℚ :=
  match macd, macdSig, macdHist with
  | some m, some s, some h =>
    let p1 : ℚ × ℚ :=
      if m > s then
        if h > 0 ∧ h > (1/10) * |m| then (2, 0) else (1, 0)
      else if m < s then
        if h < 0 ∧ |h| > (1/10) * |m| then (0, 2) else (0, 1)
      else (0, 0)
    if |m - s| < (5/100) * |m| ∧ m ≠ 0 then
      if m > s then (p1.1 - 1/2, p1.2) else (p1.1, p1.2 - 1/2)
    else p1
  | _, _, _ => (0, 0)

/-- EMA conditions of `generate_trading_signal` (step 4, lines 85-103). -/
def emaSignalVotes (ema9 ema21 ema55 price : Option ℚ) : ℚ × ℚ :=
  match ema9, ema21, ema55 with
  | some e9, some e21, some e55 =>
    let p1 : ℚ × ℚ :=
      if e9 > e21 ∧ e21 > e55 then (2, 0)
      else if e9 > e21 then (1, 0)
      else if e9 < e21 ∧ e21 < e55 then (0, 2)
      else if e9 < e21 then (0, 1)
      else (0, 0)
    match price with
    | none => p1
    | some p =>
      if p > e55 then (p1.1 + 1, p1.2)
      else if p < e55 then (p1.1, p1.2 + 1)
      else p1
  | _, _, _ => (0, 0)

/-- ADX conditions of `generate_trading_signal` (step 5, lines 105-116). -/
def adxSignalVotes (adx plusDi minusDi : Option ℚ) : ℚ × ℚ :=
  match adx, plusDi, minusDi with
  | some a, some pd, some md =>
    if a ≥ 25 then
      if pd > md then if a ≥ 40 then (2, 0) else (1, 0)
      else if md > pd then if a ≥ 40 then (0, 2) else (0, 1)
      else (0, 0)
    else (0, 0)
  | _, _, _ => (0, 0)

/-- Net signal strength of `generate_trading_signal` (line 119):
bullish minus bearish signal counts over all five vote sources. -/
def signalStrength (score : ℤ) (d : Direction) (price : Option ℚ)
    (t : TechIndicators) : ℚ :=
  let v0 := baseSignalVotes score d
  let v1 := rsiSignalVotes t.rsi
  let v2 := macdSignalVotes t.macd t.macd_signal t.macd_hist
  let v3 := emaSignalVotes t.ema_9 t.ema_21 t.ema_55 price
  let v4 := adxSignalVotes t.adx t.adx_plus_di t.adx_minus_di
  (v0.1 + v1.1 + v2.1 + v3.1 + v4.1) - (v0.2 + v1.2 + v2.2 + v3.2 + v4.2)

/-- Strength-to-signal mapping of `generate_trading_signal`
(step 6, lines 118-136). -/
def signalFromStrength (st : ℚ) : TradingSignal :=
  if st ≥ 6 then .strongBuy
  else if st ≥ 3 then .buy
  else if st ≤ -7 then .strongSell
  else if st ≤ -4 then .sell
  else .hold

/-- Extreme oversold/overbought override of `generate_trading_signal`
(step 7, lines 138-156). -/
def applyOverride (rsi adx plusDi minusDi : Option ℚ)
    (sig : TradingSignal) : TradingSignal :=
  match rsi with
  | none => sig
  | some r =>
    if r ≤ 20 ∧ sig ≠ .strongSell ∧ sig ≠ .sell then
      match adx, plusDi, minusDi with
      | some a, some pd, some md =>
        if a ≥ 25 ∧ pd > md then .strongBuy else .buy
      | _, _, _ => .buy
    else if r ≥ 80 ∧ sig ≠ .strongBuy ∧ sig ≠ .buy then
      match adx, plusDi, minusDi with
      | some a, some pd, some md =>
        if a ≥ 25 ∧ md > pd then .strongSell else .sell
      | _, _, _ => .sell
    else sig

/-- The Signal Resolver `generate_trading_signal` (lines 6-158). -/
def generate_trading_signal (score : ℤ) (d : Direction) (price : Option ℚ)
    (t : TechIndicators) : TradingSignal :=
  applyOverride t.rsi t.adx t.adx_plus_di t.adx_minus_di
    (signalFromStrength (signalStrength score d price t))

/-- Structured confidence data returned by `calculate_confidence_score`
(lines 813-821); the evidence string lists are not modelled. -/
structure ConfidenceResult where
  overall_score : ℤ
  direction : Direction
  signal : TradingSignal
  factor_scores : FactorScores
  indicator_agreement : ℚ
deriving Repr, DecidableEq

/-- The Confidence Scorer `calculate_confidence_score` (lines 160-821). -/
def calculate_confidence_score (t : TechIndicators) (price : Option ℚ)
    (mc : Option MarketContext) (tw : Option TwitterSentiment) : ConfidenceResult :=
  let votes := collectVotes t price
  let d := computeDirection votes
  let ratio0 := voteAgreement votes d
  let agreementScore := ratio0 * 10
  let base := weightedComponentSum (baseScores t price) + agreementScore * 1
  let overall :=
    max 0 (min 100 (pyRound (base + contextAdjustment d mc + twitterAdjustment d tw)))
  { overall_score := overall
    direction := d
    signal := generate_trading_signal overall d price t
    factor_scores := finalScores t price d mc tw
    indicator_agreement := pyRound2 ratio0 }

/-- Observable state of the caller DataFrame handed to
`calculate_technical_indicators`: its column names and emptiness. The
function rewrites `df.columns` in place (line 56); fallback branches may
additionally reassign the `close` column, a further mutation that no
claim depends on and that this state does not track. -/
structure DataFrame where
  colNames : List String
  isEmptyDf : Bool
deriving Repr, DecidableEq

/-- Python `str.lower()` on an (ASCII) column name, applied characterwise. -/
def lowerStr (s : String) : String := ⟨s.data.map Char.toLower⟩

/-- Python dict assignment `results[k] = v` on an association list:
replace in place when the key exists, else append. -/
def setKey (l : List (String × Option ℚ)) (k : String) (v : Option ℚ) :
    List (String × Option ℚ) :=
  if (l.map Prod.fst).contains k then
    l.map fun p => if p.1 = k then (k, v) else p
  else l ++ [(k, v)]

/-- The initialized `results` dict of lines 34-47: the fixed keys plus one
`sma_N` / `ema_N` key per configured period, every value `None`. -/
def initResults (smaPeriods emaPeriods : List ℕ) : List (String × Option ℚ) :=
  let base : List (String × Option ℚ) :=
    [("rsi", none), ("macd", none), ("macd_signal", none), ("macd_hist", none),
     ("bb_upper", none), ("bb_middle", none), ("bb_lower", none),
     ("sma_50", none),
     ("adx", none), ("adx_plus_di", none), ("adx_minus_di", none)]
  let withSma := smaPeriods.foldl (fun acc p => setKey acc ("sma_" ++ toString p) none) base
  emaPeriods.foldl (fun acc p => setKey acc ("ema_" ++ toString p) none) withSma

/-- Outcomes of the external pandas / pandas_ta computations invoked by
`calculate_technical_indicators`. The library is outside this repository;
each field summarizes one call site: `.error` models the call raising
(which the source catches, falling back or leaving the keys `None`), and
the `Option` payload models the extracted last value, `none` when the
series was empty or all-NaN. -/
structure TaOutcomes where
  taRsi : Except Unit (Option ℚ)
  manualRsi : Option ℚ
  taMacd : Except Unit (Option ℚ × Option ℚ × Option ℚ)
  manualMacd : Option ℚ × Option ℚ × Option ℚ
  taSma : ℕ → Except Unit (Option ℚ)
  manualSma : ℕ → Option ℚ
  taEma : ℕ → Except Unit (Option ℚ)
  manualEma : ℕ → Option ℚ
  taAdx : Except Unit (Option ℚ × Option ℚ × Option ℚ)
  taBbands : Except Unit (Option ℚ × Option ℚ × Option ℚ)

/-- RSI block of `calculate_technical_indicators` (lines 66-114):
pandas_ta result, or the manual fallback when it raises. -/
def rsiUpdate (oc : TaOutcomes) (results : List (String × Option ℚ)) :
    List (String × Option ℚ) :=
  match oc.taRsi with
  | .ok v => setKey results "rsi" v
  | .error _ => setKey results "rsi" oc.manualRsi

/-- MACD block of `calculate_technical_indicators` (lines 116-184). -/
def macdUpdate (oc : TaOutcomes) (results : List (String × Option ℚ)) :
    List (String × Option ℚ) :=
  match oc.taMacd with
  | .ok (m, s, h) =>
    setKey (setKey (setKey results "macd" m) "macd_signal" s) "macd_hist" h
  | .error _ =>
    let m := oc.manualMacd
    setKey (setKey (setKey results "macd" m.1) "macd_signal" m.2.1) "macd_hist" m.2.2

/-- One SMA loop iteration of `calculate_technical_indicators`
(lines 186-224). -/
def smaUpdate (oc : TaOutcomes) (results : List (String × Option ℚ)) (p : ℕ) :
    List (String × Option ℚ) :=
  match oc.taSma p with
  | .ok v => setKey results ("sma_" ++ toString p) v
  | .error _ => setKey results ("sma_" ++ toString p) (oc.manualSma p)

/-- One EMA loop iteration of `calculate_technical_indicators`
(lines 226-261). -/
def emaUpdate (oc : TaOutcomes) (results : List (String × Option ℚ)) (p : ℕ) :
    List (String × Option ℚ) :=
  match oc.taEma p with
  | .ok v => setKey results ("ema_" ++ toString p) v
  | .error _ => setKey results ("ema_" ++ toString p) (oc.manualEma p)

/-- ADX block of `calculate_technical_indicators` (lines 263-285): on a
raise the keys keep their initialized `None`. -/
def adxUpdate (oc : TaOutcomes) (results : List (String × Option ℚ)) :
    List (String × Option ℚ) :=
  match oc.taAdx with
  | .ok (a, p, m) =>
    setKey (setKey (setKey results "adx" a) "adx_plus_di" p) "adx_minus_di" m
  | .error _ => results

/-- Bollinger Bands block of `calculate_technical_indicators`
(lines 287-309). -/
def bbandsUpdate (oc : TaOutcomes) (results : List (String × Option ℚ)) :
    List (String × Option ℚ) :=
  match oc.taBbands with
  | .ok (u, m, l) =>
    setKey (setKey (setKey results "bb_upper" u) "bb_middle" m) "bb_lower" l
  | .error _ => results

/-- The Indicator Engine `calculate_technical_indicators` (lines 6-311):
returns the results dict together with the post-call state of the caller
DataFrame (whose column names line 56 lowercases in place). -/
def calculate_technical_indicators (oc : TaOutcomes)
    (smaPeriods emaPeriods : List ℕ) (df : DataFrame) :
    List (String × Option ℚ) × DataFrame :=
  let results := initResults smaPeriods emaPeriods
  if df.isEmptyDf then (results, df)
  else
    let df1 : DataFrame := { df with colNames := df.colNames.map lowerStr }
    if ¬ df1.colNames.contains "close" then (results, df1)
    else
      let r1 := rsiUpdate oc results
      let r2 := macdUpdate oc r1
      let r3 := smaPeriods.foldl (smaUpdate oc) r2
      let r4 := emaPeriods.foldl (emaUpdate oc) r3
      let r5 := adxUpdate oc r4
      let r6 := bbandsUpdate oc r5
      (r6, df1)

/-- The fixed indicator key set of the snapshot contract. -/
def fixedIndicatorKeys : List String :=
  ["rsi", "macd", "macd_signal", "macd_hist", "sma_50",
   "ema_9", "ema_21", "ema_55",
   "bb_upper", "bb_middle", "bb_lower",
   "adx", "adx_plus_di", "adx_minus_di"]

/-- Snapshot with only RSI 25 present: one bullish vote, bullish direction. -/
def exT7 : TechIndicators := { TechIndicators.empty with rsi := some 25 }

/-- Snapshot of the spec oversold-override scenario: RSI 15, ADX 35,
DI+ 30 over DI- 10, all other indicators absent. -/
def exT5 : TechIndicators :=
  { TechIndicators.empty with
    rsi := some 15
    adx := some 35
    adx_plus_di := some 30
    adx_minus_di := some 10 }

/-- Snapshot whose MACD line equals its signal line exactly (both 1,
histogram 0): the near-crossover damping case. -/
def exT10 : TechIndicators :=
  { TechIndicators.empty with
    macd := some 1
    macd_signal := some 1
    macd_hist := some 0 }

/-- Market context holding only a fear/greed reading of 20. -/
def exMcFear20 : MarketContext :=
  { fearGreed := some ⟨some (.valid 20)⟩
    fearGreedTrend := none
    globalMarket := none
    marketVolatility := none
    btcDominance := none }

/-- Market context holding only a fear/greed reading of 90. -/
def exMcFG90 : MarketContext :=
  { fearGreed := some ⟨some (.valid 90)⟩
    fearGreedTrend := none
    globalMarket := none
    marketVolatility := none
    btcDominance := none }

/-- Market context with fear/greed 90 and a +6 percent 24h global market
move: the two adjustments cancel. -/
def exMcGreedUp : MarketContext :=
  { fearGreed := some ⟨some (.valid 90)⟩
    fearGreedTrend := none
    globalMarket := some ⟨some 6⟩
    marketVolatility := none
    btcDominance := none }

/-- Market context whose fear/greed value does not parse as an integer:
`int(...)` raises inside the context `try` block. -/
def exMcBad : MarketContext :=
  { fearGreed := some ⟨some .malformed⟩
    fearGreedTrend := none
    globalMarket := none
    marketVolatility := none
    btcDominance := none }

/-- Twitter sentiment whose `key_tweets` entry has no length:
`len(...)` raises inside the sentiment `try` block. -/
def exTwBad : TwitterSentiment :=
  { overallSentiment := none
    keyTweets := some .unsized }

/-- Trivial external-library outcomes: every pandas_ta call succeeds and
yields no value. -/
def ocDefault : TaOutcomes :=
  { taRsi := .ok none
    manualRsi := none
    taMacd := .ok (none, none, none)
    manualMacd := (none, none, none)
    taSma := fun _ => .ok none
    manualSma := fun _ => none
    taEma := fun _ => .ok none
    manualEma := fun _ => none
    taAdx := .ok (none, none, none)
    taBbands := .ok (none, none, none) }

/-- A non-empty frame with an upper-case `Close` column name. -/
def dfClose : DataFrame := ⟨["Close", "open", "high", "low"], false⟩

/-- An empty frame. -/
def dfEmpty : DataFrame := ⟨["close"], true⟩

@[simp]
theorem Votes.add_mk (b1 r1 n1 b2 r2 n2 : ℕ) :
    (⟨b1, r1, n1⟩ + ⟨b2, r2, n2⟩ : Votes) = ⟨b1 + b2, r1 + r2, n1 + n2⟩ := rfl

@[simp]
theorem Votes.add_bullish (a b : Votes) : (a + b).bullish = a.bullish + b.bullish := rfl

@[simp]
theorem Votes.add_bearish (a b : Votes) : (a + b).bearish = a.bearish + b.bearish := rfl

@[simp]
theorem Votes.add_neutral (a b : Votes) : (a + b).neutral = a.neutral + b.neutral := rfl

theorem pyRound_nonneg {q : ℚ} (h : 0 ≤ q) : 0 ≤ pyRound q := by
  have hf : (0 : ℤ) ≤ ⌊q⌋ := Int.floor_nonneg.mpr h
  unfold pyRound
  split_ifs <;> omega

theorem pyRound_le_int {q : ℚ} {n : ℤ} (h : q ≤ n) : pyRound q ≤ n := by
  have h1 : ⌊q⌋ ≤ n := by
    have h2 := Int.floor_le_floor h
    simpa using h2
  unfold pyRound
  split_ifs with hc1 hc2 hc3
  · exact h1
  · have hlt : (⌊q⌋ : ℚ) < q := by linarith
    have hqn : (⌊q⌋ : ℚ) < (n : ℚ) := lt_of_lt_of_le hlt h
    have : ⌊q⌋ < n := by exact_mod_cast hqn
    omega
  · exact h1
  · have hge : (1:ℚ)/2 ≤ q - ⌊q⌋ := le_of_not_lt hc1
    have hlt : (⌊q⌋ : ℚ) < q := by linarith
    have hqn : (⌊q⌋ : ℚ) < (n : ℚ) := lt_of_lt_of_le hlt h
    have : ⌊q⌋ < n := by exact_mod_cast hqn
    omega

theorem pyRound_sub_ten (q : ℚ) : pyRound (q - 10) = pyRound q - 10 := by
  have hf : ⌊q - (10:ℚ)⌋ = ⌊q⌋ - 10 := by
    have h10 := Int.floor_sub_int q 10
    push_cast at h10
    exact_mod_cast h10
  have hfr : q - 10 - (⌊q - (10:ℚ)⌋ : ℚ) = q - ⌊q⌋ := by
    rw [hf]; push_cast; ring
  have heven : Even (⌊q⌋ - 10) = Even ⌊q⌋ := by
    apply propext
    constructor
    · intro h; rcases h with ⟨k, hk⟩; exact ⟨k + 5, by omega⟩
    · intro h; rcases h with ⟨k, hk⟩; exact ⟨k - 5, by omega⟩
  unfold pyRound
  rw [hfr, hf]
  simp only [heven]
  split_ifs <;> omega

theorem overall_score_eq (t : TechIndicators) (price : Option ℚ)
    (mc : Option MarketContext) (tw : Option TwitterSentiment) :
    (calculate_confidence_score t price mc tw).overall_score =
      max 0 (min 100 (pyRound (weightedComponentSum (baseScores t price)
        + voteAgreement (collectVotes t price) (computeDirection (collectVotes t price)) * 10
        + contextAdjustment (computeDirection (collectVotes t price)) mc
        + twitterAdjustment (computeDirection (collectVotes t price)) tw))) := by
  simp only [calculate_confidence_score, mul_one]

theorem direction_eq (t : TechIndicators) (price : Option ℚ)
    (mc : Option MarketContext) (tw : Option TwitterSentiment) :
    (calculate_confidence_score t price mc tw).direction =
      computeDirection (collectVotes t price) := rfl

theorem agreement_eq (t : TechIndicators) (price : Option ℚ)
    (mc : Option MarketContext) (tw : Option TwitterSentiment) :
    (calculate_confidence_score t price mc tw).indicator_agreement =
      pyRound2 (voteAgreement (collectVotes t price) (computeDirection (collectVotes t price))) := rfl

theorem factor_scores_eq (t : TechIndicators) (price : Option ℚ)
    (mc : Option MarketContext) (tw : Option TwitterSentiment) :
    (calculate_confidence_score t price mc tw).factor_scores =
      finalScores t price (computeDirection (collectVotes t price)) mc tw := rfl

theorem ratio_bounds (a d : ℕ) :
    0 ≤ (if a + d > 0 then (a : ℚ) / ((a : ℚ) + (d : ℚ)) else 1/2) ∧
    (if a + d > 0 then (a : ℚ) / ((a : ℚ) + (d : ℚ)) else 1/2) ≤ 1 := by
  split_ifs with h
  · have hpos : (0 : ℚ) < (a : ℚ) + (d : ℚ) := by exact_mod_cast h
    constructor
    · positivity
    · rw [div_le_one hpos]
      have : (0:ℚ) ≤ (d : ℚ) := by positivity
      linarith
  · norm_num

theorem voteAgreement_bounds (v : Votes) (d : Direction) :
    0 ≤ voteAgreement v d ∧ voteAgreement v d ≤ 1 := by
  unfold voteAgreement
  rcases d with _ | _ | _
  · exact ratio_bounds v.bullish v.bearish
  · exact ratio_bounds v.bearish v.bullish
  · exact ratio_bounds 0 0

theorem pyRound2_bounds {q : ℚ} (h0 : 0 ≤ q) (h1 : q ≤ 1) :
    0 ≤ pyRound2 q ∧ pyRound2 q ≤ 1 := by
  have ha : 0 ≤ pyRound (q * 100) := pyRound_nonneg (by linarith)
  have hb : pyRound (q * 100) ≤ (100 : ℤ) := pyRound_le_int (by push_cast; linarith)
  unfold pyRound2
  constructor
  · positivity
  · rw [div_le_one (by norm_num)]
    exact_mod_cast hb

/-- Claim C3: for every call to the Confidence Scorer, the returned
overall_score is an integer in [0,100] and the returned
indicator_agreement is in [0,1]. -/
theorem claim3_result_bounds (t : TechIndicators) (price : Option ℚ)
    (mc : Option MarketContext) (tw : Option TwitterSentiment) :
    0 ≤ (calculate_confidence_score t price mc tw).overall_score ∧
    (calculate_confidence_score t price mc tw).overall_score ≤ 100 ∧
    0 ≤ (calculate_confidence_score t price mc tw).indicator_agreement ∧
    (calculate_confidence_score t price mc tw).indicator_agreement ≤ 1 := by
  rw [overall_score_eq, agreement_eq]
  obtain ⟨ha, hb⟩ := voteAgreement_bounds (collectVotes t price)
    (computeDirection (collectVotes t price))
  obtain ⟨hc, hd⟩ := pyRound2_bounds ha hb
  refine ⟨le_max_left 0 _, ?_, hc, hd⟩
  exact max_le (by norm_num) (min_le_left 100 _)

/-- Claim C6: the returned direction is bullish iff bullish votes strictly
exceed bearish votes, bearish iff the reverse, and neutral on an exact
tie. -/
theorem claim6_direction_tally (t : TechIndicators) (price : Option ℚ)
    (mc : Option MarketContext) (tw : Option TwitterSentiment) :
    ((calculate_confidence_score t price mc tw).direction = .bullish ↔
      (collectVotes t price).bearish < (collectVotes t price).bullish) ∧
    ((calculate_confidence_score t price mc tw).direction = .bearish ↔
      (collectVotes t price).bullish < (collectVotes t price).bearish) ∧
    ((calculate_confidence_score t price mc tw).direction = .neutral ↔
      (collectVotes t price).bullish = (collectVotes t price).bearish) := by
  rw [direction_eq]
  unfold computeDirection
  split_ifs with h1 h2
  · refine ⟨⟨fun _ => h1, fun _ => rfl⟩, ⟨fun h => by simp at h, fun h => by omega⟩,
      ⟨fun h => by simp at h, fun h => by omega⟩⟩
  · refine ⟨⟨fun h => by simp at h, fun h => by omega⟩, ⟨fun _ => h2, fun _ => rfl⟩,
      ⟨fun h => by simp at h, fun h => by omega⟩⟩
  · refine ⟨⟨fun h => by simp at h, fun h => by omega⟩, ⟨fun h => by simp at h, fun h => by omega⟩,
      ⟨fun _ => by omega, fun _ => rfl⟩⟩

/-- Claim C1 (amended): the aggregate overall_score before the agreement
bonus, adjustment terms and clamping is a fixed-weight (unnormalized) sum
in which the six technical families weigh 8 percent each and data quality
10 percent, while the market-context and social-sentiment coefficients
(25 and 15 percent) multiply sub-scores that are still unset when the sum
is computed and therefore contribute 0. -/
theorem claim1_amended (t : TechIndicators) (price : Option ℚ)
    (mc : Option MarketContext) (tw : Option TwitterSentiment) :
    preAdjustmentAggregate t price =
      ((rsiBlock t.rsi).1 + (macdBlock t.macd t.macd_signal t.macd_hist).1
        + (bbBlock t.bb_upper t.bb_middle t.bb_lower price).1
        + (smaBlock t.sma_50 price).1
        + (adxBlock t.adx t.adx_plus_di t.adx_minus_di).1
        + (emaBlock t.ema_9 t.ema_21 t.ema_55 price).1) * (8/100)
        + dataQuality t * (10/100) ∧
    (calculate_confidence_score t price mc tw).overall_score =
      max 0 (min 100 (pyRound (preAdjustmentAggregate t price
        + voteAgreement (collectVotes t price) (computeDirection (collectVotes t price)) * 10
        + contextAdjustment (computeDirection (collectVotes t price)) mc
        + twitterAdjustment (computeDirection (collectVotes t price)) tw))) := by
  constructor
  · unfold preAdjustmentAggregate weightedComponentSum baseScores
    simp only [Option.getD_none]
    ring
  · rw [overall_score_eq]
    rfl

/-- Claim C1 counterexample: a call whose market context is present with
sub-score 10 (recorded in factor_scores), while the pre-agreement
pre-adjustment aggregate is 47/70, strictly below the 2-point minimum
that any normalized weighted sum giving that sub-score at least a
20 percent weight would produce over these nonnegative sub-scores. -/
theorem claim1_counterexample :
    (calculate_confidence_score exT7 none (some exMcFear20) none).factor_scores.market_context
      = some 10 ∧
    (calculate_confidence_score exT7 none (some exMcFear20) none).factor_scores.rsi = 15/2 ∧
    (calculate_confidence_score exT7 none (some exMcFear20) none).factor_scores.macd = 0 ∧
    (calculate_confidence_score exT7 none (some exMcFear20) none).factor_scores.bb = 0 ∧
    (calculate_confidence_score exT7 none (some exMcFear20) none).factor_scores.sma = 0 ∧
    (calculate_confidence_score exT7 none (some exMcFear20) none).factor_scores.adx = 0 ∧
    (calculate_confidence_score exT7 none (some exMcFear20) none).factor_scores.ema = 0 ∧
    (calculate_confidence_score exT7 none (some exMcFear20) none).factor_scores.data_quality
      = 5/7 ∧
    preAdjustmentAggregate exT7 none = 47/70 ∧
    (47 : ℚ)/70 < (1/5) * 10 := by
  norm_num [calculate_confidence_score, factor_scores_eq, finalScores, baseScores,
    collectVotes, computeDirection, processMarketContext, fgStep, trendStep, globalStep,
    volStep, btcStep, rsiBlock, macdBlock, bbBlock, smaBlock, adxBlock, emaBlock,
    dataQuality, preAdjustmentAggregate, weightedComponentSum, exT7, exMcFear20,
    TechIndicators.empty]

/-- Claim C2 counterexample: at RSI 15 the Signal Resolver vote block adds
exactly one bullish vote, not the three the claim states; at RSI 85 it
adds exactly one bearish vote, not three. -/
theorem claim2_counterexample :
    rsiSignalVotes (some 15) = (1, 0) ∧ rsiSignalVotes (some 15) ≠ (3, 0) ∧
    rsiSignalVotes (some 85) = (0, 1) ∧ rsiSignalVotes (some 85) ≠ (0, 3) := by
  norm_num [rsiSignalVotes]

/-- Claim C2 (amended): in the Signal Resolver vote tally, RSI at most 30
adds one bullish vote and RSI at least 70 (hence above 30) adds one
bearish vote; the elif branches for RSI at most 20 and at least 80 are
shadowed by the preceding conditions and never add their extra votes. -/
theorem claim2_amended (r : ℚ) :
    rsiSignalVotes (some r) =
      if r ≤ 30 then (1, 0) else if r ≥ 70 then (0, 1) else (0, 0) := by
  simp only [rsiSignalVotes]
  split_ifs <;> first | rfl | linarith

/-- Claim C5: for RSI 15, ADX 35 with DI+ above DI-, direction bearish and
score 70, the oversold override fires and the resolver returns
STRONG BUY. -/
theorem claim5_oversold_override :
    generate_trading_signal 70 .bearish none exT5 = .strongBuy := by
  norm_num [generate_trading_signal, applyOverride, signalFromStrength, signalStrength,
    baseSignalVotes, rsiSignalVotes, macdSignalVotes, emaSignalVotes, adxSignalVotes,
    exT5, TechIndicators.empty]
  decide

/-- Claim C10: when MACD equals its signal line exactly and is nonzero
(histogram present), no MACD vote is cast on either side yet the
near-crossover damping subtracts one half from the bearish count, so the
net signal strength shifts by one half toward bullish compared to the
same call with the MACD inputs absent. -/
theorem claim10_neutral_macd_damping (score : ℤ) (d : Direction) (price : Option ℚ)
    (t : TechIndicators) (m h : ℚ) (hm : m ≠ 0)
    (h1 : t.macd = some m) (h2 : t.macd_signal = some m) (h3 : t.macd_hist = some h) :
    macdSignalVotes t.macd t.macd_signal t.macd_hist = (0, -(1/2)) ∧
    signalStrength score d price t =
      signalStrength score d price
        { t with macd := none, macd_signal := none, macd_hist := none } + 1/2 := by
  have habs : (0 : ℚ) < (5/100) * |m| := by
    have : (0:ℚ) < |m| := abs_pos.mpr hm
    linarith
  have hmain : macdSignalVotes t.macd t.macd_signal t.macd_hist = (0, -(1/2)) := by
    rw [h1, h2, h3]
    simp only [macdSignalVotes]
    rw [if_neg (lt_irrefl m)]
    have hcond : |m - m| < (5/100) * |m| ∧ m ≠ 0 := by
      constructor
      · simpa using habs
      · exact hm
    rw [if_neg (lt_irrefl m), if_pos hcond, if_neg (lt_irrefl m)]
    norm_num
  refine ⟨hmain, ?_⟩
  unfold signalStrength
  simp only [hmain]
  norm_num [macdSignalVotes]
  ring

/-- Claim C10 witness: the damping theorem applied at MACD = signal = 1,
histogram 0, all other inputs absent. -/
theorem claim10_witness :
    (1 : ℚ) ≠ 0 ∧ exT10.macd = some 1 ∧ exT10.macd_signal = some 1 ∧
    exT10.macd_hist = some 0 ∧
    (macdSignalVotes exT10.macd exT10.macd_signal exT10.macd_hist = (0, -(1/2)) ∧
      signalStrength 0 .neutral none exT10 =
        signalStrength 0 .neutral none
          { exT10 with macd := none, macd_signal := none, macd_hist := none } + 1/2) :=
  ⟨by norm_num, rfl, rfl, rfl,
    claim10_neutral_macd_damping 0 .neutral none exT10 1 0 (by norm_num) rfl rfl rfl⟩

/-- Claim C7 counterexample: with fear/greed 90 plus a +6 percent global
market move and a bullish technical direction, the context adjustment is
0 (not strictly negative) and the overall score equals the score of the
identical call without market context. -/
theorem claim7_counterexample :
    (calculate_confidence_score exT7 none (some exMcGreedUp) none).direction = .bullish ∧
    contextAdjustment .bullish (some exMcGreedUp) = 0 ∧
    (calculate_confidence_score exT7 none (some exMcGreedUp) none).overall_score =
      (calculate_confidence_score exT7 none none none).overall_score := by
  refine ⟨?_, ?_, ?_⟩
  · norm_num [direction_eq, collectVotes, computeDirection, rsiBlock, macdBlock, bbBlock,
      smaBlock, adxBlock, emaBlock, exT7, TechIndicators.empty]
  · norm_num [contextAdjustment, processMarketContext, fgStep, trendStep, globalStep,
      volStep, btcStep, exMcGreedUp]
  · rw [overall_score_eq, overall_score_eq]
    norm_num [contextAdjustment, twitterAdjustment, processMarketContext, fgStep,
      trendStep, globalStep, volStep, btcStep, collectVotes, computeDirection, rsiBlock,
      macdBlock, bbBlock, smaBlock, adxBlock, emaBlock, exT7, exMcGreedUp,
      TechIndicators.empty]

/-- Claim C7 (amended): when the market context consists solely of a
fear/greed reading of 90 and the technical direction is bullish, the
fear/greed term contributes 0 points and the context adjustment is
exactly -10; whenever the score of the identical call without market
context lies strictly between 0 and 100, the score with this context is
strictly lower. -/
theorem claim7_amended (t : TechIndicators) (price : Option ℚ)
    (hd : computeDirection (collectVotes t price) = .bullish)
    (h0 : 0 < (calculate_confidence_score t price none none).overall_score)
    (h100 : (calculate_confidence_score t price none none).overall_score < 100) :
    processMarketContext .bullish exMcFG90 = .ok (0, -10) ∧
    contextAdjustment (computeDirection (collectVotes t price)) (some exMcFG90) = -10 ∧
    (calculate_confidence_score t price (some exMcFG90) none).overall_score <
      (calculate_confidence_score t price none none).overall_score := by
  have hproc : processMarketContext .bullish exMcFG90 = .ok (0, -10) := by
    norm_num [processMarketContext, fgStep, trendStep, globalStep, volStep, btcStep,
      exMcFG90]
  have hctx : contextAdjustment (computeDirection (collectVotes t price)) (some exMcFG90)
      = -10 := by
    rw [hd]
    simp [contextAdjustment, hproc]
  refine ⟨hproc, hctx, ?_⟩
  have htw : twitterAdjustment (computeDirection (collectVotes t price)) none = 0 := rfl
  have hc0 : contextAdjustment (computeDirection (collectVotes t price)) none = 0 := rfl
  rw [overall_score_eq, overall_score_eq, hctx, htw, hc0]
  rw [overall_score_eq, htw, hc0] at h0 h100
  have harg : weightedComponentSum (baseScores t price)
      + voteAgreement (collectVotes t price) (computeDirection (collectVotes t price)) * 10
      + -10 + 0
      = (weightedComponentSum (baseScores t price)
        + voteAgreement (collectVotes t price) (computeDirection (collectVotes t price)) * 10
        + 0 + 0) - 10 := by ring
  rw [harg, pyRound_sub_ten]
  set r := pyRound (weightedComponentSum (baseScores t price)
    + voteAgreement (collectVotes t price) (computeDirection (collectVotes t price)) * 10
    + 0 + 0) with hr
  have hrpos : 0 < r := by
    rcases lt_max_iff.mp h0 with h | h
    · omega
    · rcases lt_min_iff.mp h with ⟨_, h⟩
      exact h
  have hrlt : r < 100 := by
    rcases max_lt_iff.mp h100 with ⟨_, h⟩
    rcases min_lt_iff.mp h with h | h
    · omega
    · exact h
  have hrhs : max 0 (min 100 r) = r := by
    rw [min_eq_right hrlt.le, max_eq_right hrpos.le]
  have hlhs1 : min 100 (r - 10) = r - 10 := min_eq_right (by omega)
  rw [hrhs, hlhs1]
  exact max_lt_iff.mpr ⟨hrpos, by omega⟩

theorem exT7_direction : computeDirection (collectVotes exT7 none) = .bullish := by
  norm_num [collectVotes, computeDirection, rsiBlock, macdBlock, bbBlock, smaBlock,
    adxBlock, emaBlock, exT7, TechIndicators.empty]

theorem exT7_none_score : (calculate_confidence_score exT7 none none none).overall_score = 11 := by
  norm_num [overall_score_eq, weightedComponentSum, baseScores, voteAgreement,
    contextAdjustment, twitterAdjustment, collectVotes, computeDirection, rsiBlock,
    macdBlock, bbBlock, smaBlock, adxBlock, emaBlock, dataQuality, pyRound, exT7,
    TechIndicators.empty]

/-- Claim C7 witness: the amended theorem applied at the single-RSI-25
snapshot, whose context-free score is 11. -/
theorem claim7_witness :
    computeDirection (collectVotes exT7 none) = .bullish ∧
    0 < (calculate_confidence_score exT7 none none none).overall_score ∧
    (calculate_confidence_score exT7 none none none).overall_score < 100 ∧
    (processMarketContext .bullish exMcFG90 = .ok (0, -10) ∧
      contextAdjustment (computeDirection (collectVotes exT7 none)) (some exMcFG90) = -10 ∧
      (calculate_confidence_score exT7 none (some exMcFG90) none).overall_score <
        (calculate_confidence_score exT7 none none none).overall_score) :=
  ⟨exT7_direction, by rw [exT7_none_score]; norm_num, by rw [exT7_none_score]; norm_num,
    claim7_amended exT7 none exT7_direction
      (by rw [exT7_none_score]; norm_num) (by rw [exT7_none_score]; norm_num)⟩

/-- Claim C9: if processing of the optional market context or Twitter
sentiment raises internally, the scorer swallows the error (the raising
operations are modelled by the Except results of the processing
functions, and the caller handles both constructors totally), omits that
family sub-score from factor_scores, and still returns a complete result
whose score is clamped into range, computed from the partial adjustment
carried at the raise point. -/
theorem claim9_optional_error_swallowed (t : TechIndicators) (price : Option ℚ)
    (mc : MarketContext) (tw : TwitterSentiment)
    (wo : Option TwitterSentiment) (mo : Option MarketContext) (adjC adjT : ℚ) :
    (processMarketContext (computeDirection (collectVotes t price)) mc = .error adjC →
      (calculate_confidence_score t price (some mc) wo).factor_scores.market_context = none ∧
      (calculate_confidence_score t price (some mc) wo).overall_score =
        max 0 (min 100 (pyRound (weightedComponentSum (baseScores t price)
          + voteAgreement (collectVotes t price) (computeDirection (collectVotes t price)) * 10
          + adjC + twitterAdjustment (computeDirection (collectVotes t price)) wo))) ∧
      0 ≤ (calculate_confidence_score t price (some mc) wo).overall_score ∧
      (calculate_confidence_score t price (some mc) wo).overall_score ≤ 100) ∧
    (processTwitter (computeDirection (collectVotes t price)) tw = .error adjT →
      (calculate_confidence_score t price mo (some tw)).factor_scores.twitter_sentiment = none ∧
      (calculate_confidence_score t price mo (some tw)).overall_score =
        max 0 (min 100 (pyRound (weightedComponentSum (baseScores t price)
          + voteAgreement (collectVotes t price) (computeDirection (collectVotes t price)) * 10
          + contextAdjustment (computeDirection (collectVotes t price)) mo + adjT))) ∧
      0 ≤ (calculate_confidence_score t price mo (some tw)).overall_score ∧
      (calculate_confidence_score t price mo (some tw)).overall_score ≤ 100) := by
  constructor
  · intro hErr
    refine ⟨?_, ?_, ?_, ?_⟩
    · rw [factor_scores_eq]
      unfold finalScores
      rcases wo with _ | w
      · simp [hErr, baseScores]
      · rcases hpt : processTwitter (computeDirection (collectVotes t price)) w with adj | p
        · simp [hErr, hpt, baseScores]
        · simp [hErr, hpt, baseScores]
    · rw [overall_score_eq]
      simp [contextAdjustment, hErr]
    · rw [overall_score_eq]
      exact le_max_left 0 _
    · rw [overall_score_eq]
      exact max_le (by norm_num) (min_le_left 100 _)
  · intro hErr
    refine ⟨?_, ?_, ?_, ?_⟩
    · rw [factor_scores_eq]
      unfold finalScores
      rcases mo with _ | m
      · simp [hErr, baseScores]
      · rcases hpm : processMarketContext (computeDirection (collectVotes t price)) m
          with adj | p
        · simp [hErr, hpm, baseScores]
        · simp [hErr, hpm, baseScores]
    · rw [overall_score_eq]
      simp [twitterAdjustment, hErr]
    · rw [overall_score_eq]
      exact le_max_left 0 _
    · rw [overall_score_eq]
      exact max_le (by norm_num) (min_le_left 100 _)

/-- Claim C9 witness: malformed fear/greed value and an unsized
key-tweets object both raise with partial adjustment 0; the scorer swallows
both at the all-None snapshot. -/
theorem claim9_witness :
    processMarketContext (computeDirection (collectVotes TechIndicators.empty none)) exMcBad
      = .error 0 ∧
    processTwitter (computeDirection (collectVotes TechIndicators.empty none)) exTwBad
      = .error 0 ∧
    ((calculate_confidence_score TechIndicators.empty none (some exMcBad) (some exTwBad)
        ).factor_scores.market_context = none ∧
      (calculate_confidence_score TechIndicators.empty none (some exMcBad) (some exTwBad)
        ).overall_score =
        max 0 (min 100 (pyRound (weightedComponentSum (baseScores TechIndicators.empty none)
          + voteAgreement (collectVotes TechIndicators.empty none)
              (computeDirection (collectVotes TechIndicators.empty none)) * 10
          + 0 + twitterAdjustment
              (computeDirection (collectVotes TechIndicators.empty none)) (some exTwBad)))) ∧
      0 ≤ (calculate_confidence_score TechIndicators.empty none (some exMcBad) (some exTwBad)
        ).overall_score ∧
      (calculate_confidence_score TechIndicators.empty none (some exMcBad) (some exTwBad)
        ).overall_score ≤ 100) :=
  ⟨rfl, rfl,
    (claim9_optional_error_swallowed TechIndicators.empty none exMcBad exTwBad
      (some exTwBad) (some exMcBad) 0 0).1 rfl⟩

theorem mem_keys_setKey {l : List (String × Option ℚ)} {k0 : String} (k : String)
    (v : Option ℚ) (h : k0 ∈ l.map Prod.fst) : k0 ∈ (setKey l k v).map Prod.fst := by
  unfold setKey
  split_ifs with hc
  · have hmap : (l.map fun p => if p.1 = k then (k, v) else p).map Prod.fst
        = l.map Prod.fst := by
      rw [List.map_map]
      apply List.map_congr_left
      intro p _
      by_cases hp : p.1 = k
      · simp [hp]
      · simp [hp]
    rw [hmap]
    exact h
  · rw [List.map_append]
    exact List.mem_append_left _ h

theorem mem_keys_rsiUpdate (oc : TaOutcomes) (l : List (String × Option ℚ)) {k0 : String}
    (h : k0 ∈ l.map Prod.fst) : k0 ∈ (rsiUpdate oc l).map Prod.fst := by
  unfold rsiUpdate
  rcases oc.taRsi with e | v
  · exact mem_keys_setKey _ _ h
  · exact mem_keys_setKey _ _ h

theorem mem_keys_macdUpdate (oc : TaOutcomes) (l : List (String × Option ℚ)) {k0 : String}
    (h : k0 ∈ l.map Prod.fst) : k0 ∈ (macdUpdate oc l).map Prod.fst := by
  unfold macdUpdate
  rcases oc.taMacd with e | ⟨m, s, hh⟩
  · exact mem_keys_setKey _ _ (mem_keys_setKey _ _ (mem_keys_setKey _ _ h))
  · exact mem_keys_setKey _ _ (mem_keys_setKey _ _ (mem_keys_setKey _ _ h))

theorem mem_keys_smaUpdate (oc : TaOutcomes) (l : List (String × Option ℚ)) (p : ℕ)
    {k0 : String} (h : k0 ∈ l.map Prod.fst) : k0 ∈ (smaUpdate oc l p).map Prod.fst := by
  unfold smaUpdate
  rcases oc.taSma p with e | v
  · exact mem_keys_setKey _ _ h
  · exact mem_keys_setKey _ _ h

theorem mem_keys_emaUpdate (oc : TaOutcomes) (l : List (String × Option ℚ)) (p : ℕ)
    {k0 : String} (h : k0 ∈ l.map Prod.fst) : k0 ∈ (emaUpdate oc l p).map Prod.fst := by
  unfold emaUpdate
  rcases oc.taEma p with e | v
  · exact mem_keys_setKey _ _ h
  · exact mem_keys_setKey _ _ h

theorem mem_keys_adxUpdate (oc : TaOutcomes) (l : List (String × Option ℚ)) {k0 : String}
    (h : k0 ∈ l.map Prod.fst) : k0 ∈ (adxUpdate oc l).map Prod.fst := by
  unfold adxUpdate
  rcases oc.taAdx with e | ⟨a, pl, mi⟩
  · exact h
  · exact mem_keys_setKey _ _ (mem_keys_setKey _ _ (mem_keys_setKey _ _ h))

theorem mem_keys_bbandsUpdate (oc : TaOutcomes) (l : List (String × Option ℚ)) {k0 : String}
    (h : k0 ∈ l.map Prod.fst) : k0 ∈ (bbandsUpdate oc l).map Prod.fst := by
  unfold bbandsUpdate
  rcases oc.taBbands with e | ⟨u, m, lo⟩
  · exact h
  · exact mem_keys_setKey _ _ (mem_keys_setKey _ _ (mem_keys_setKey _ _ h))

theorem mem_keys_init {k0 : String} (h : k0 ∈ fixedIndicatorKeys) :
    k0 ∈ (initResults [50] [9, 21, 55]).map Prod.fst := by
  fin_cases h <;> decide

/-- Claim C4: for every input to the Indicator Engine (any library
outcome and any frame, including empty), the returned snapshot contains
every key of the fixed indicator set under the default periods, and for
an empty frame every value is None. The per-indicator try/except
structure is modelled by the total handling of both Except constructors,
so no exception escapes. -/
theorem claim4_snapshot_total (oc : TaOutcomes) (df : DataFrame) :
    (∀ k ∈ fixedIndicatorKeys,
      k ∈ (calculate_technical_indicators oc [50] [9, 21, 55] df).1.map Prod.fst) ∧
    (df.isEmptyDf = true →
      ∀ kv ∈ (calculate_technical_indicators oc [50] [9, 21, 55] df).1, kv.2 = none) := by
  constructor
  · intro k hk
    have hbase := mem_keys_init hk
    simp only [calculate_technical_indicators]
    split_ifs with h1 h2
    · exact hbase
    · simp only [List.foldl_cons, List.foldl_nil]
      exact mem_keys_bbandsUpdate _ _ (mem_keys_adxUpdate _ _
        (mem_keys_emaUpdate _ _ _ (mem_keys_emaUpdate _ _ _ (mem_keys_emaUpdate _ _ _
          (mem_keys_smaUpdate _ _ _ (mem_keys_macdUpdate _ _
            (mem_keys_rsiUpdate _ _ hbase)))))))
    · exact hbase
  · intro hEmpty
    simp only [calculate_technical_indicators, hEmpty, if_true]
    decide

/-- Claim C4 witness: the key-set and all-None conclusions at the trivial
library outcome and the empty frame. -/
theorem claim4_witness :
    "rsi" ∈ fixedIndicatorKeys ∧
    "rsi" ∈ (calculate_technical_indicators ocDefault [50] [9, 21, 55] dfEmpty).1.map Prod.fst ∧
    dfEmpty.isEmptyDf = true ∧
    (∀ kv ∈ (calculate_technical_indicators ocDefault [50] [9, 21, 55] dfEmpty).1,
      kv.2 = none) :=
  ⟨by decide,
    (claim4_snapshot_total ocDefault dfEmpty).1 "rsi" (by decide),
    rfl,
    (claim4_snapshot_total ocDefault dfEmpty).2 rfl⟩

/-- Claim C8 counterexample: handed a non-empty frame whose close column
is spelled `Close`, the engine rewrites the caller column names in place,
so the input frame is mutated. -/
theorem claim8_counterexample :
    (calculate_technical_indicators ocDefault [50] [9, 21, 55] dfClose).2 ≠ dfClose ∧
    (calculate_technical_indicators ocDefault [50] [9, 21, 55] dfClose).2.colNames
      = ["close", "open", "high", "low"] ∧
    dfClose.colNames = ["Close", "open", "high", "low"] := by
  refine ⟨?_, ?_, rfl⟩
  · decide
  · decide

/-- Claim C8 (amended): the engine mutates the caller frame: for every
non-empty input it rewrites the column names to lowercase in place (the
fallback branches may additionally reassign the close column); an empty
frame is returned untouched. -/
theorem claim8_amended (oc : TaOutcomes) (smaPeriods emaPeriods : List ℕ)
    (df : DataFrame) (h : df.isEmptyDf = false) :
    (calculate_technical_indicators oc smaPeriods emaPeriods df).2.colNames
      = df.colNames.map lowerStr ∧
    (calculate_technical_indicators oc smaPeriods emaPeriods df).2.isEmptyDf = false := by
  simp only [calculate_technical_indicators, h, Bool.false_eq_true, if_false]
  split_ifs <;> simp

/-- Claim C8 witness: the amended theorem applied at the `Close` frame. -/
theorem claim8_witness :
    dfClose.isEmptyDf = false ∧
    ((calculate_technical_indicators ocDefault [50] [9, 21, 55] dfClose).2.colNames
        = dfClose.colNames.map lowerStr ∧
      (calculate_technical_indicators ocDefault [50] [9, 21, 55] dfClose).2.isEmptyDf
        = false) :=
  ⟨rfl, claim8_amended ocDefault [50] [9, 21, 55] dfClose rfl⟩
